import Mathlib

/-!
Verification of the animal-shop data-access layer.

The repository has three components, each implementing the same data-access
contracts over the same four tables:
  * `app/dao.py`        — raw-SQL data access objects (`AnimalsDAO`,
    `AnimalCentersDAO`, `SpeciesDAO`), which build literal SQL text and map
    positional result rows into plain dictionaries;
  * `app/dao_models.py` — ORM data access objects (`AnimalORM`,
    `AnimalCenterORM`, `SpeciesORM`), which use the ORM query/session API;
  * `app/models.py`     — the entity classes (`AnimalCenter`, `Animal`,
    `Species`), which also implement the same operations directly.

The embedding below models a database state as explicit lists of rows (one
list per table) and each operation as a pure function of that state.  Column
values are modelled by a single `Value` type (integers, strings, SQL NULL);
Python dictionaries are modelled as association lists in insertion order.
Operations that can raise a Python or database exception are modelled with
`Except Unit`, where `Except.error ()` stands for the raised exception;
operations that signal "no match" with Python `None` are modelled with
`Option`, where `none` is the no-match sentinel.
-/

set_option autoImplicit false

namespace AnimalShop

/-- A column value: an SQL integer, an SQL string, or SQL NULL. -/
inductive Value where
  | int (n : Int)
  | str (s : String)
  | null
deriving DecidableEq, Repr

/-- A Python dictionary with string keys, modelled as an association list in
insertion order (the deserializers build their dictionaries with distinct
keys, so insertion order determines the dictionary completely). -/
abbrev Dict := List (String × Value)

/-- The value stored under key `k`, if any (first occurrence). -/
def lookupKey (d : Dict) (k : String) : Option Value :=
  match d with
  | [] => none
  | (k2, v) :: rest => if k2 = k then some v else lookupKey rest k

/-- The keys of a dictionary, in insertion order. -/
def keys (d : Dict) : List String := d.map Prod.fst

/-- A row of the `animal` table.  Column order follows the declaration order
in `app/models.py` (`id`, `center_id`, `name`, `description`, `age`,
`species_id`, `price`), which is also the positional order the raw-SQL DAO
relies on (`record[0]` … `record[6]`). -/
structure AnimalRow where
  id : Value
  center_id : Value
  name : Value
  description : Value
  age : Value
  species_id : Value
  price : Value
deriving DecidableEq, Repr

/-- A row of the `animal_center` table (`id`, `login`, `password_hash`,
`address`).  The commented-out `animals` relationship in `app/models.py` is
deliberately absent: instances of `AnimalCenter` have no `animals`
attribute. -/
structure CenterRow where
  id : Value
  login : String
  password_hash : String
  address : Value
deriving DecidableEq, Repr

/-- A row of the `species` table (`id`, `name`, `description`, `price`). -/
structure SpeciesRow where
  id : Value
  name : Value
  description : Value
  price : Value
deriving DecidableEq, Repr

/-- The database state: the three tables the verified operations touch.  The
`access_request` table is append-only and never read back, and no claim
mentions it, so it is omitted from the state. -/
structure DB where
  centers : List CenterRow
  animals : List AnimalRow
  species : List SpeciesRow
deriving DecidableEq, Repr

/-- The positional result row `SELECT * FROM animal` produces for an animal
row: fields in declared column order. -/
def animalRecord (a : AnimalRow) : List Value :=
  [a.id, a.center_id, a.name, a.description, a.age, a.species_id, a.price]

/-- The positional result row `SELECT * FROM species` produces. -/
def speciesRecord (s : SpeciesRow) : List Value :=
  [s.id, s.name, s.description, s.price]

/-- Reading the attribute named `f` from an animal row (`getattr`). Unknown
names yield `Value.null`; the theorems only ever use declared column names. -/
def AnimalRow.getField (r : AnimalRow) (f : String) : Value :=
  if f = "id" then r.id
  else if f = "center_id" then r.center_id
  else if f = "name" then r.name
  else if f = "description" then r.description
  else if f = "age" then r.age
  else if f = "species_id" then r.species_id
  else if f = "price" then r.price
  else Value.null

/-- Assigning the attribute/column named `f` on an animal row (`setattr`, or
an SQL `SET f=value` item).  Unknown names leave the row unchanged; the
theorems only ever use declared column names. -/
def AnimalRow.setField (r : AnimalRow) (f : String) (v : Value) : AnimalRow :=
  if f = "id" then { r with id := v }
  else if f = "center_id" then { r with center_id := v }
  else if f = "name" then { r with name := v }
  else if f = "description" then { r with description := v }
  else if f = "age" then { r with age := v }
  else if f = "species_id" then { r with species_id := v }
  else if f = "price" then { r with price := v }
  else r

/-- Applying a field-name/value mapping to a row, one assignment per entry in
order: `for key, value in data.items(): setattr(animal, key, value)`. -/
def applyUpd (r : AnimalRow) (m : Dict) : AnimalRow :=
  m.foldl (fun acc kv => acc.setField kv.1 kv.2) r

/-- The seven declared columns of the `animal` table. -/
def animalFields : List String :=
  ["id", "center_id", "name", "description", "age", "species_id", "price"]

/-- The columns of the `animal` table an update mapping may name (all but the
primary key). -/
def updatableAnimalFields : List String :=
  ["center_id", "name", "description", "age", "species_id", "price"]

/-- Python string conversion (`str`) of a value, as `.format` interpolates it
into SQL text: integers print in decimal, strings print verbatim, and `None`
prints as the four letters `None` — not as SQL `NULL`. -/
def pyStr : Value → String
  | Value.int n => toString n
  | Value.str s => s
  | Value.null => "None"

/-- The single-quote character that delimits SQL string literals. -/
def sqlQuote : Char := Char.ofNat 39

/-- Value of the remaining digit characters, accumulating left to right;
`none` as soon as a non-digit appears. -/
def digitsValAux : List Char → Nat → Option Nat
  | [], acc => some acc
  | c :: cs, acc =>
      if c.isDigit then digitsValAux cs (acc * 10 + (c.toNat - 48)) else none

/-- Value of a non-empty all-digit character sequence; `none` otherwise. -/
def digitsVal : List Char → Option Nat
  | [] => none
  | c :: cs => digitsValAux (c :: cs) 0

/-- Value of a well-formed optionally-signed decimal integer literal
(`Char.ofNat 45` is the minus sign, `Char.ofNat 43` the plus sign); `none`
for any other text, such as `None`. -/
def intLitVal (s : String) : Option Int :=
  match s.data with
  | c :: cs =>
      if c = Char.ofNat 45 then (digitsVal cs).map (fun n => -(n : Int))
      else if c = Char.ofNat 43 then (digitsVal cs).map (fun n => (n : Int))
      else (digitsVal (c :: cs)).map (fun n => (n : Int))
  | [] => none

/-- SQLite column type affinity applied to text stored through a quoted
`SET` literal: the TEXT-affinity columns `name` and `description` keep the
text as text, while the numeric-affinity columns (`id`, `center_id`, `age`,
`species_id`, `price`) convert a well-formed integer literal back to the
number and keep any other text — in particular the rendering `None` of a
Python `None` — as text. -/
def affinity (f : String) (s : String) : Value :=
  if f = "name" ∨ f = "description" then Value.str s
  else
    match intLitVal s with
    | some n => Value.int n
    | none => Value.str s

/-- The column/value pair actually stored by one `SET` item: the column keeps
its name and receives the affinity conversion of the quoted rendering of the
supplied value. -/
def storedSetItem (kv : String × Value) : String × Value :=
  (kv.1, affinity kv.1 (pyStr kv.2))

/-! ## Raw-SQL data access objects (`app/dao.py`) -/

namespace AnimalsDAO

/-- `AnimalsDAO.deserialize`: maps a positional `animal` result row to a
dictionary; short form uses `record[0]` (id) and `record[2]` (name), the long
form adds `record[1]`, `record[3]`, `record[4]`, `record[5]`, `record[6]`. -/
def deserialize (record : List Value) (long : Bool) : Dict :=
  let data : Dict := [("id", record.getD 0 .null), ("name", record.getD 2 .null)]
  if long then
    data ++ [("center_id", record.getD 1 .null), ("description", record.getD 3 .null),
             ("age", record.getD 4 .null), ("species_id", record.getD 5 .null),
             ("price", record.getD 6 .null)]
  else data

/-- `AnimalsDAO.get_animals`: `SELECT * FROM animal;` then short-form
deserialization of every row. -/
def get_animals (db : DB) : List Dict :=
  db.animals.map (fun a => deserialize (animalRecord a) false)

/-- `AnimalsDAO.get_animal`: `SELECT * FROM animal WHERE id={} ... .first()`;
long-form deserialization of the first matching row, `None` otherwise. -/
def get_animal (db : DB) (animal_id : Int) : Option Dict :=
  match db.animals.find? (fun a => decide (a.id = Value.int animal_id)) with
  | some record => some (deserialize (animalRecord record) true)
  | none => none

/-- `AnimalsDAO.delete_animal`: `DELETE FROM animal WHERE id={}` — removes
every matching row, silently a no-op when none matches. -/
def delete_animal (db : DB) (animal_id : Int) : DB :=
  { db with animals := db.animals.filter (fun a => decide (a.id ≠ Value.int animal_id)) }

/-- `AnimalsDAO.update_animal`: pops `id` from a copy of the `animal` mapping
(`KeyError`, hence an exception, if absent), builds a `SET` clause from the
remaining entries and issues `UPDATE animal SET ... WHERE id=...`.
An empty mapping leaves an empty `SET` clause, which is malformed SQL and
raises.  Each `SET` item renders its value through Python string conversion
into a single-quoted literal: a rendering that itself contains a quote
character escapes the literal and derails the statement, modelled as a
raised database error; otherwise the named column stores the affinity
conversion of the rendered text (`storedSetItem`) — so a `None` value is
stored as the text `None`, not as `NULL`. -/
def update_animal (db : DB) (animal : Dict) : Except Unit DB :=
  match lookupKey animal "id" with
  | none => Except.error ()
  | some idv =>
      let rest := animal.filter (fun kv => decide (kv.1 ≠ "id"))
      if rest = [] then Except.error ()
      else if rest.any (fun kv => (pyStr kv.2).data.contains sqlQuote) then
        Except.error ()
      else Except.ok { db with
        animals := db.animals.map (fun a =>
          if a.id = idv then applyUpd a (rest.map storedSetItem) else a) }

end AnimalsDAO

namespace AnimalCentersDAO

/-- `AnimalCentersDAO.deserialize`: `id` and `login` from named record
attributes; the long form adds `address`. -/
def deserialize (record : CenterRow) (long : Bool) : Dict :=
  let data : Dict := [("id", record.id), ("login", Value.str record.login)]
  if long then data ++ [("address", record.address)] else data

/-- `AnimalCentersDAO.get_centers`: `SELECT * FROM animal_center;` with
short-form deserialization. -/
def get_centers (db : DB) : List Dict :=
  db.centers.map (fun c => deserialize c false)

/-- `AnimalCentersDAO.get_center_inform`: fetches the first center row with
the given id and all animals with that `center_id`; returns the pair of the
long center mapping and the short animal mappings, or `None` when the center
does not exist. -/
def get_center_inform (db : DB) (id : Int) : Option (Dict × List Dict) :=
  match db.centers.find? (fun c => decide (c.id = Value.int id)) with
  | some record =>
      some (deserialize record true,
            (db.animals.filter (fun a => decide (a.center_id = Value.int id))).map
              (fun a => AnimalsDAO.deserialize (animalRecord a) false))
  | none => none

/-- `AnimalCentersDAO.get_center_by_login`: first row with the given login,
long form, or `None`. -/
def get_center_by_login (db : DB) (user_login : String) : Option Dict :=
  match db.centers.find? (fun c => decide (c.login = user_login)) with
  | some record => some (deserialize record true)
  | none => none

/-- `AnimalCentersDAO.check_password`: `SELECT password_hash FROM
animal_center WHERE id=... .first()`, then `check_password_hash` on the
fetched record.  When no row matches, `record` is `None` and reading
`record.password_hash` raises — modelled as `Except.error ()`.  The hash
verifier `cph` abstracts `werkzeug.security.check_password_hash`. -/
def check_password (cph : String → String → Bool) (db : DB)
    (password : String) (user_id : Int) : Except Unit Bool :=
  match db.centers.find? (fun c => decide (c.id = Value.int user_id)) with
  | some record => Except.ok (cph record.password_hash password)
  | none => Except.error ()

end AnimalCentersDAO

/-- Value of `count(animal.name)` contributed by the animals joined to the
species row with id `sid`: the number of animals whose `species_id` matches
and whose `name` is not NULL (SQL `count` ignores NULLs, and an unmatched
left-outer-join row carries a NULL animal side). -/
def countJoin (db : DB) (sid : Value) : Nat :=
  (db.animals.filter
    (fun a => decide (a.species_id = sid) && decide (a.name ≠ Value.null))).length

namespace SpeciesDAO

/-- `SpeciesDAO.deserialize`: the short form reads positions 0 and 1 of an
aggregate row `(species.name, count)`; when `long` is set, the dictionary is
rebuilt from a full species row `(id, name, description, price)`. -/
def deserialize (record : List Value) (long : Bool) : Dict :=
  let data : Dict := [("species_name", record.getD 0 .null),
                      ("count_of_animals", record.getD 1 .null)]
  if long then
    [("id", record.getD 0 .null), ("name", record.getD 1 .null),
     ("description", record.getD 2 .null), ("price", record.getD 3 .null)]
  else data

/-- `SpeciesDAO.get_species`: `SELECT species.name, count(animal.name) FROM
species LEFT OUTER JOIN animal ON species.id = animal.species_id GROUP BY
species.name` — one aggregate row per distinct species *name*; the count of a
name group sums the joined animals of every species row carrying that name. -/
def get_species (db : DB) : List Dict :=
  ((db.species.map (fun s => s.name)).dedup).map (fun nm =>
    deserialize
      [nm, Value.int (((db.species.filter (fun s => decide (s.name = nm))).map
          (fun s => (countJoin db s.id : Int))).sum)]
      false)

/-- `SpeciesDAO.get_species_inform`: fetches the species row and the animals
with that `species_id`; pair of the long species mapping and short animal
mappings, or `None` when the species does not exist. -/
def get_species_inform (db : DB) (id : Int) : Option (Dict × List Dict) :=
  match db.species.find? (fun s => decide (s.id = Value.int id)) with
  | some record =>
      some (deserialize (speciesRecord record) true,
            (db.animals.filter (fun a => decide (a.species_id = Value.int id))).map
              (fun a => AnimalsDAO.deserialize (animalRecord a) false))
  | none => none

end SpeciesDAO

/-! ## ORM data access objects (`app/dao_models.py`) -/

namespace AnimalCenterORM

/-- `AnimalCenterORM.deserialize`: `id` and `login`, long form adds
`address`. -/
def deserialize (record : CenterRow) (long : Bool) : Dict :=
  let data : Dict := [("id", record.id), ("login", Value.str record.login)]
  if long then data ++ [("address", record.address)] else data

/-- `AnimalCenterORM.check_password`: `AnimalCenter.query.get(user_id)` then
`check_password_hash(record.password_hash, password)`.  With no matching
center, `record` is `None` and the attribute read raises — `Except.error ()`.
`cph` abstracts `werkzeug.security.check_password_hash`. -/
def check_password (cph : String → String → Bool) (db : DB)
    (password : String) (user_id : Int) : Except Unit Bool :=
  match db.centers.find? (fun c => decide (c.id = Value.int user_id)) with
  | some record => Except.ok (cph record.password_hash password)
  | none => Except.error ()

/-- `AnimalCenterORM.get_centers`: all center rows, short form. -/
def get_centers (db : DB) : List Dict :=
  db.centers.map (fun c => deserialize c false)

/-- `AnimalCenterORM.get_center_inform`: fetches the center by primary key;
with no match it returns `None` (`Except.ok none`).  When the center exists
the code reads `record.animals`, but the `animals` relationship is commented
out in `app/models.py`, so an `AnimalCenter` instance has no such attribute
and the read raises — `Except.error ()`. -/
def get_center_inform (db : DB) (id : Int) : Except Unit (Option (Dict × List Dict)) :=
  match db.centers.find? (fun c => decide (c.id = Value.int id)) with
  | some _ => Except.error ()
  | none => Except.ok none

/-- `AnimalCenterORM.get_center_by_login`: `filter_by(login=...).first()`,
returning the raw managed entity (not a dictionary) or `None`. -/
def get_center_by_login (db : DB) (user_login : String) : Option CenterRow :=
  db.centers.find? (fun c => decide (c.login = user_login))

end AnimalCenterORM

namespace AnimalORM

/-- `AnimalORM.deserialize`: `id` and `name` from attributes; the long form
adds `center_id`, `description`, `age`, `species_id`, `price`. -/
def deserialize (record : AnimalRow) (long : Bool) : Dict :=
  let data : Dict := [("id", record.id), ("name", record.name)]
  if long then
    data ++ [("center_id", record.center_id), ("description", record.description),
             ("age", record.age), ("species_id", record.species_id),
             ("price", record.price)]
  else data

/-- `AnimalORM.get_animals`: all animal rows, short form. -/
def get_animals (db : DB) : List Dict :=
  db.animals.map (fun a => deserialize a false)

/-- `AnimalORM.get_animal`: `Animal.query.get(animal_id)`, long form when the
row exists, `None` otherwise. -/
def get_animal (db : DB) (animal_id : Int) : Option Dict :=
  match db.animals.find? (fun a => decide (a.id = Value.int animal_id)) with
  | some animal => some (deserialize animal true)
  | none => none

/-- `AnimalORM.delete_animal`: fetches by primary key, then
`db.session.delete(animal)` and commit.  When no row matches, the fetch
yields `None` and `session.delete(None)` raises — `Except.error ()`. -/
def delete_animal (db : DB) (animal_id : Int) : Except Unit DB :=
  match db.animals.find? (fun a => decide (a.id = Value.int animal_id)) with
  | some _ =>
      Except.ok { db with
        animals := db.animals.filter (fun a => decide (a.id ≠ Value.int animal_id)) }
  | none => Except.error ()

/-- `AnimalORM.update_animal`: fetches by primary key (the unique row with
that id) and runs `setattr(animal, key, value)` for each entry of `data_upd`,
then commits.  When no row matches and `data_upd` is non-empty the first
`setattr` on `None` raises; with an empty `data_upd` the loop body never runs
and the call is a no-op. -/
def update_animal (db : DB) (data_upd : Dict) (animal_id : Int) : Except Unit DB :=
  match db.animals.find? (fun a => decide (a.id = Value.int animal_id)) with
  | some _ =>
      Except.ok { db with
        animals := db.animals.map
          (fun a => if a.id = Value.int animal_id then applyUpd a data_upd else a) }
  | none => if data_upd = [] then Except.ok db else Except.error ()

end AnimalORM

namespace SpeciesORM

/-- `SpeciesORM.deserialize`: only the `long` branch assigns `data`; invoked
without the long flag, `return data` finds the local unbound and raises, so
no dictionary is produced — modelled as `none`. -/
def deserialize (record : SpeciesRow) (long : Bool) : Option Dict :=
  if long then
    some [("id", record.id), ("name", record.name),
          ("description", record.description), ("price", record.price)]
  else none

/-- `SpeciesORM.get_species`: query of `(Species.name, count(Animal.name))`
left-outer-joined on `Species.id = Animal.species_id`, grouped by
`Species.id` — one result row per distinct species *id* (the primary key, so
one per species row), labelled with the name of that row. -/
def get_species (db : DB) : List Dict :=
  ((db.species.map (fun s => s.id)).dedup).map (fun sid =>
    [("species_name",
        (((db.species.find? (fun s => decide (s.id = sid))).map (fun s => s.name)).getD
          Value.null)),
     ("count_of_animals", Value.int (countJoin db sid))])

/-- `SpeciesORM.get_species_inform`: fetches the species row and the animals
with that `species_id`; pair of the long species mapping and *short* animal
mappings, or `None`. -/
def get_species_inform (db : DB) (id : Int) : Option (Dict × List Dict) :=
  match db.species.find? (fun s => decide (s.id = Value.int id)) with
  | some species =>
      (deserialize species true).map (fun d =>
        (d, (db.animals.filter (fun a => decide (a.species_id = Value.int id))).map
              (fun a => AnimalORM.deserialize a false)))
  | none => none

end SpeciesORM

/-! ## Entity classes (`app/models.py`) -/

namespace AnimalCenter

/-- `AnimalCenter.set_password` writes `generate_password_hash(password)`
into `password_hash`; `gph` abstracts the hashing library. -/
def set_password (gph : String → String) (self : CenterRow) (password : String) : CenterRow :=
  { self with password_hash := gph password }

/-- `AnimalCenter.check_password`: verifies the plaintext against the hash
held by the entity instance itself; the `user_id` parameter is accepted (with
default `None`) but never read. -/
def check_password (cph : String → String → Bool) (self : CenterRow)
    (password : String) (user_id : Option Int) : Bool :=
  cph self.password_hash password

/-- `AnimalCenter.deserialize`: `id` and `login` from the instance, long form
adds `address`. -/
def deserialize (self : CenterRow) (long : Bool) : Dict :=
  let data : Dict := [("id", self.id), ("login", Value.str self.login)]
  if long then data ++ [("address", self.address)] else data

/-- `AnimalCenter.get_centers`: all center rows, short form. -/
def get_centers (db : DB) : List Dict :=
  db.centers.map (fun c => deserialize c false)

/-- `AnimalCenter.get_center_inform`: fetches the center by primary key and
returns only its long mapping (no animal list), or `None` when absent. -/
def get_center_inform (db : DB) (id : Int) : Option Dict :=
  match db.centers.find? (fun c => decide (c.id = Value.int id)) with
  | some record => some (deserialize record true)
  | none => none

/-- `AnimalCenter.get_center_by_login`: `filter_by(login=...).first()`,
returning the raw entity or `None`. -/
def get_center_by_login (db : DB) (user_login : String) : Option CenterRow :=
  db.centers.find? (fun c => decide (c.login = user_login))

end AnimalCenter

namespace Animal

/-- `Animal.deserialize`: `id` and `name` from the instance; long form adds
the remaining columns. -/
def deserialize (self : AnimalRow) (long : Bool) : Dict :=
  let data : Dict := [("id", self.id), ("name", self.name)]
  if long then
    data ++ [("center_id", self.center_id), ("description", self.description),
             ("age", self.age), ("species_id", self.species_id),
             ("price", self.price)]
  else data

/-- `Animal.get_animals`: all animal rows, short form (`deserialize()` with
the default `long=False`). -/
def get_animals (db : DB) : List Dict :=
  db.animals.map (fun a => deserialize a false)

/-- `Animal.get_animal`: `Animal().query.get(animal_id)` followed by
`animal.deserialize(long=True)` with *no* existence check: when no row
matches, the fetch yields `None` and the method call on `None` raises —
`Except.error ()`. -/
def get_animal (db : DB) (animal_id : Int) : Except Unit Dict :=
  match db.animals.find? (fun a => decide (a.id = Value.int animal_id)) with
  | some animal => Except.ok (deserialize animal true)
  | none => Except.error ()

/-- `Animal.delete_animal`: fetch by primary key, `db.session.delete(animal)`
and commit; `session.delete(None)` raises when no row matches. -/
def delete_animal (db : DB) (animal_id : Int) : Except Unit DB :=
  match db.animals.find? (fun a => decide (a.id = Value.int animal_id)) with
  | some _ =>
      Except.ok { db with
        animals := db.animals.filter (fun a => decide (a.id ≠ Value.int animal_id)) }
  | none => Except.error ()

/-- `Animal.update_animal`: same body as `AnimalORM.update_animal` — fetch
by primary key, `setattr` per entry of `data_upd`, commit. -/
def update_animal (db : DB) (data_upd : Dict) (animal_id : Int) : Except Unit DB :=
  match db.animals.find? (fun a => decide (a.id = Value.int animal_id)) with
  | some _ =>
      Except.ok { db with
        animals := db.animals.map
          (fun a => if a.id = Value.int animal_id then applyUpd a data_upd else a) }
  | none => if data_upd = [] then Except.ok db else Except.error ()

end Animal

namespace Species

/-- `Species.deserialize`: identical to the ORM DAO species deserializer —
the short branch is absent and without the long flag no dictionary is
produced (`return data` on an unbound local raises). -/
def deserialize (self : SpeciesRow) (long : Bool) : Option Dict :=
  if long then
    some [("id", self.id), ("name", self.name),
          ("description", self.description), ("price", self.price)]
  else none

/-- `Species.get_species`: same grouped join as `SpeciesORM.get_species`,
grouped by `Species.id`. -/
def get_species (db : DB) : List Dict :=
  ((db.species.map (fun s => s.id)).dedup).map (fun sid =>
    [("species_name",
        (((db.species.find? (fun s => decide (s.id = sid))).map (fun s => s.name)).getD
          Value.null)),
     ("count_of_animals", Value.int (countJoin db sid))])

/-- `Species.get_species_inform`: fetches the species row and the animals
with that `species_id`; pair of the long species mapping and the animals in
their *long* form (`animal.deserialize(long=True)`), or `None`. -/
def get_species_inform (db : DB) (id : Int) : Option (Dict × List Dict) :=
  match db.species.find? (fun s => decide (s.id = Value.int id)) with
  | some species =>
      (deserialize species true).map (fun d =>
        (d, (db.animals.filter (fun a => decide (a.species_id = Value.int id))).map
              (fun a => Animal.deserialize a true)))
  | none => none

end Species

/-! ## Concrete database states used as witnesses -/

/-- A database with no rows at all. -/
def emptyDB : DB := ⟨[], [], []⟩

/-- One animal: id 1, owned by center 1, species 1. -/
def exAnimal1 : AnimalRow :=
  ⟨Value.int 1, Value.int 1, Value.str "Rex", Value.str "friendly dog",
   Value.int 3, Value.int 1, Value.int 100⟩

/-- One animal center, id 1. -/
def exCenter1 : CenterRow := ⟨Value.int 1, "shelter1", "hash-of-pw", Value.str "1 Main St"⟩

/-- Species id 1, named dog. -/
def exSpecies1 : SpeciesRow := ⟨Value.int 1, Value.str "dog", Value.str "canine", Value.int 50⟩

/-- Species id 2, also named dog (same name as `exSpecies1`, different id). -/
def exSpecies2 : SpeciesRow := ⟨Value.int 2, Value.str "dog", Value.str "another dog", Value.int 60⟩

/-- A small populated database: one center, one animal, one species. -/
def exDB : DB := ⟨[exCenter1], [exAnimal1], [exSpecies1]⟩

/-- Like `exDB` but with an empty animal table. -/
def exDBnoAnimals : DB := ⟨[exCenter1], [], [exSpecies1]⟩

/-- Two species rows sharing the name dog under distinct ids. -/
def exDBdupName : DB := ⟨[], [], [exSpecies1, exSpecies2]⟩

/-! ## Helper lemmas -/

theorem lookupKey_eq_none {m : Dict} {k : String} (h : k ∉ keys m) :
    lookupKey m k = none := by
  induction m with
  | nil => rfl
  | cons kv t ih =>
      rw [show keys (kv :: t) = kv.1 :: keys t from rfl] at h
      simp only [List.mem_cons, not_or] at h
      have h1 : kv.1 ≠ k := fun he => h.1 he.symm
      simp only [lookupKey, if_neg h1]
      exact ih h.2

theorem getField_setField (r : AnimalRow) {k : String} (hk : k ∈ animalFields)
    (v : Value) {f : String} (hf : f ∈ animalFields) :
    (r.setField k v).getField f = if f = k then v else r.getField f := by
  fin_cases hk <;> fin_cases hf <;> rfl

theorem getField_applyUpd (r : AnimalRow) (m : Dict)
    (hnd : (keys m).Nodup) (hk : ∀ x ∈ keys m, x ∈ animalFields)
    {f : String} (hf : f ∈ animalFields) :
    (applyUpd r m).getField f = (lookupKey m f).getD (r.getField f) := by
  induction m generalizing r with
  | nil => rfl
  | cons kv t ih =>
      obtain ⟨k, v⟩ := kv
      rw [show keys ((k, v) :: t) = k :: keys t from rfl] at hnd
      have hknotin : k ∉ keys t := (List.nodup_cons.mp hnd).1
      have htnd : (keys t).Nodup := (List.nodup_cons.mp hnd).2
      have hkmem : k ∈ animalFields := hk k (by
        rw [show keys ((k, v) :: t) = k :: keys t from rfl]
        exact List.mem_cons_self k (keys t))
      have hkt : ∀ x ∈ keys t, x ∈ animalFields := fun x hx =>
        hk x (by
          rw [show keys ((k, v) :: t) = k :: keys t from rfl]
          exact List.mem_cons_of_mem k hx)
      have hstep : applyUpd r ((k, v) :: t) = applyUpd (r.setField k v) t := rfl
      rw [hstep, ih (r.setField k v) htnd hkt]
      by_cases hfk : f = k
      · subst hfk
        rw [lookupKey_eq_none hknotin]
        simp [lookupKey, getField_setField r hkmem v hf]
      · have hne2 : ¬ (k = f) := fun h => hfk h.symm
        simp [lookupKey, hne2, getField_setField r hkmem v hf, hfk]

theorem dedup_length_lt {α : Type} [DecidableEq α] (l : List α) (h : ¬ l.Nodup) :
    l.dedup.length < l.length := by
  rcases Nat.lt_or_ge l.dedup.length l.length with hlt | hge
  · exact hlt
  · exfalso
    have heq : l.dedup.length = l.length :=
      Nat.le_antisymm (List.dedup_sublist l).length_le hge
    exact h ((List.dedup_sublist l).eq_of_length heq ▸ l.nodup_dedup)

theorem updatable_mem_animalFields : ∀ k ∈ updatableAnimalFields, k ∈ animalFields := by
  decide

theorem keys_map_storedSetItem (m : Dict) : keys (m.map storedSetItem) = keys m := by
  induction m with
  | nil => rfl
  | cons kv t ih =>
      show kv.1 :: keys (t.map storedSetItem) = kv.1 :: keys t
      rw [ih]

theorem lookupKey_map_storedSetItem (m : Dict) (f : String) :
    lookupKey (m.map storedSetItem) f =
      (lookupKey m f).map (fun v => affinity f (pyStr v)) := by
  induction m with
  | nil => rfl
  | cons kv t ih =>
      by_cases h : kv.1 = f
      · simp [lookupKey, storedSetItem, h]
      · simp [lookupKey, storedSetItem, h, ih]

/-- For a list with no row whose id matches, the id-searching `find?` used by
the lookup operations returns `none`. -/
theorem find?_id_eq_none {l : List AnimalRow} {v : Value}
    (h : ∀ a ∈ l, a.id ≠ v) :
    l.find? (fun a => decide (a.id = v)) = none :=
  List.find?_eq_none.mpr (fun x hx => by simpa using h x hx)

/-- Same as `find?_id_eq_none` for center rows. -/
theorem find?_center_id_eq_none {l : List CenterRow} {v : Value}
    (h : ∀ c ∈ l, c.id ≠ v) :
    l.find? (fun c => decide (c.id = v)) = none :=
  List.find?_eq_none.mpr (fun x hx => by simpa using h x hx)

/-- Same as `find?_id_eq_none` for species rows. -/
theorem find?_species_id_eq_none {l : List SpeciesRow} {v : Value}
    (h : ∀ s ∈ l, s.id ≠ v) :
    l.find? (fun s => decide (s.id = v)) = none :=
  List.find?_eq_none.mpr (fun x hx => by simpa using h x hx)

/-! ## Claim C1 -/

/-- Claim C1, counterexample: the claim says every get-by-id style lookup in
all three components returns the no-match sentinel and never raises.  But the
entity-level `Animal.get_animal` (models.py lines 151-153) calls
`animal.deserialize(long=True)` without checking the fetch result, so on a
database with no animal of id 1 it dereferences `None` and raises
(`Except.error ()` in the embedding) instead of returning the sentinel. -/
theorem claim1_counterexample :
    Animal.get_animal emptyDB 1 = Except.error () := rfl

/-- Claim C1 (amended): with no matching row, every get-by-id and
get-by-login style lookup across the three components returns the no-match
sentinel without raising — except the entity-level `Animal.get_animal`, which
raises because it dereferences the absent fetch result. -/
theorem claim1_lookup_miss_sentinel (db : DB) (animal_id cid sid : Int)
    (user_login : String) :
    ((∀ a ∈ db.animals, a.id ≠ Value.int animal_id) →
        AnimalsDAO.get_animal db animal_id = none ∧
        AnimalORM.get_animal db animal_id = none ∧
        Animal.get_animal db animal_id = Except.error ()) ∧
    ((∀ c ∈ db.centers, c.id ≠ Value.int cid) →
        AnimalCentersDAO.get_center_inform db cid = none ∧
        AnimalCenterORM.get_center_inform db cid = Except.ok none ∧
        AnimalCenter.get_center_inform db cid = none) ∧
    ((∀ c ∈ db.centers, c.login ≠ user_login) →
        AnimalCentersDAO.get_center_by_login db user_login = none ∧
        AnimalCenterORM.get_center_by_login db user_login = none ∧
        AnimalCenter.get_center_by_login db user_login = none) ∧
    ((∀ s ∈ db.species, s.id ≠ Value.int sid) →
        SpeciesDAO.get_species_inform db sid = none ∧
        SpeciesORM.get_species_inform db sid = none ∧
        Species.get_species_inform db sid = none) := by
  refine ⟨fun h => ?_, fun h => ?_, fun h => ?_, fun h => ?_⟩
  · have hf := find?_id_eq_none h
    exact ⟨by simp [AnimalsDAO.get_animal, hf], by simp [AnimalORM.get_animal, hf],
      by simp [Animal.get_animal, hf]⟩
  · have hf := find?_center_id_eq_none h
    exact ⟨by simp [AnimalCentersDAO.get_center_inform, hf],
      by simp [AnimalCenterORM.get_center_inform, hf],
      by simp [AnimalCenter.get_center_inform, hf]⟩
  · have hf : db.centers.find? (fun c => decide (c.login = user_login)) = none :=
      List.find?_eq_none.mpr (fun x hx => by simpa using h x hx)
    exact ⟨by simp [AnimalCentersDAO.get_center_by_login, hf],
      by simp [AnimalCenterORM.get_center_by_login, hf],
      by simp [AnimalCenter.get_center_by_login, hf]⟩
  · have hf := find?_species_id_eq_none h
    exact ⟨by simp [SpeciesDAO.get_species_inform, hf],
      by simp [SpeciesORM.get_species_inform, hf],
      by simp [Species.get_species_inform, hf]⟩

/-- Claim C1, witness for the amended theorem at a concrete state: `exDB` has
no animal, center, species of id 2 and no login ghost. -/
theorem claim1_witness :
    (AnimalsDAO.get_animal exDB 2 = none ∧
      AnimalORM.get_animal exDB 2 = none ∧
      Animal.get_animal exDB 2 = Except.error ()) ∧
    (AnimalCentersDAO.get_center_inform exDB 2 = none ∧
      AnimalCenterORM.get_center_inform exDB 2 = Except.ok none ∧
      AnimalCenter.get_center_inform exDB 2 = none) ∧
    (AnimalCentersDAO.get_center_by_login exDB "ghost" = none ∧
      AnimalCenterORM.get_center_by_login exDB "ghost" = none ∧
      AnimalCenter.get_center_by_login exDB "ghost" = none) ∧
    (SpeciesDAO.get_species_inform exDB 2 = none ∧
      SpeciesORM.get_species_inform exDB 2 = none ∧
      Species.get_species_inform exDB 2 = none) :=
  ⟨(claim1_lookup_miss_sentinel exDB 2 2 2 "ghost").1 (by decide),
   (claim1_lookup_miss_sentinel exDB 2 2 2 "ghost").2.1 (by decide),
   (claim1_lookup_miss_sentinel exDB 2 2 2 "ghost").2.2.1 (by decide),
   (claim1_lookup_miss_sentinel exDB 2 2 2 "ghost").2.2.2 (by decide)⟩

/-! ## Claim C2 -/

/-- Claim C2, counterexample: the claim says deleting a non-existent animal
id raises in no implementation.  `exDB` has no animal of id 99, yet the ORM
DAO and the entity method both fetch `None` and pass it to
`db.session.delete`, which raises. -/
theorem claim2_counterexample :
    (∀ a ∈ exDB.animals, a.id ≠ Value.int 99) ∧
    AnimalORM.delete_animal exDB 99 = Except.error () ∧
    Animal.delete_animal exDB 99 = Except.error () := by
  refine ⟨by decide, rfl, rfl⟩

/-- Claim C2 (amended): for an animal id with no matching row, the raw-SQL
delete is a silent no-op that leaves the database unchanged, while the
ORM-DAO and entity-level deletes raise (session delete of the `None` fetch
result); none of them changes any row. -/
theorem claim2_delete_missing (db : DB) (animal_id : Int)
    (h : ∀ a ∈ db.animals, a.id ≠ Value.int animal_id) :
    AnimalsDAO.delete_animal db animal_id = db ∧
    AnimalORM.delete_animal db animal_id = Except.error () ∧
    Animal.delete_animal db animal_id = Except.error () := by
  have hf := find?_id_eq_none h
  refine ⟨?_, by simp [AnimalORM.delete_animal, hf], by simp [Animal.delete_animal, hf]⟩
  have hfil : db.animals.filter (fun a => decide (a.id ≠ Value.int animal_id)) = db.animals :=
    List.filter_eq_self.mpr (fun a ha => by simpa using h a ha)
  show { db with
    animals := db.animals.filter (fun a => decide (a.id ≠ Value.int animal_id)) } = db
  rw [hfil]

/-- Claim C2, witness for the amended theorem: no animal of id 2 in `exDB`. -/
theorem claim2_witness :
    AnimalsDAO.delete_animal exDB 2 = exDB ∧
    AnimalORM.delete_animal exDB 2 = Except.error () ∧
    Animal.delete_animal exDB 2 = Except.error () :=
  claim2_delete_missing exDB 2 (by decide)

/-! ## Claim C7 -/

/-- Claim C7: the entity-level `AnimalCenter.check_password` gives the same
result whatever identifier argument it is passed (including the absent
default `None`), and that result is exactly the hash verification of the
plaintext against the hash stored on the instance itself. -/
theorem claim7_check_password_ignores_id (cph : String → String → Bool)
    (self : CenterRow) (password : String) (u1 u2 : Option Int) :
    AnimalCenter.check_password cph self password u1 =
      AnimalCenter.check_password cph self password u2 ∧
    AnimalCenter.check_password cph self password u1 =
      cph self.password_hash password :=
  ⟨rfl, rfl⟩

/-! ## Claim C8 -/

/-- Claim C8, counterexample: the claim says every Species deserializer
invoked without the long flag produces no value, but the raw-SQL
`SpeciesDAO.deserialize` has a short branch and returns the species-listing
mapping. -/
theorem claim8_counterexample :
    SpeciesDAO.deserialize [Value.str "dog", Value.int 2] false =
      [("species_name", Value.str "dog"), ("count_of_animals", Value.int 2)] := rfl

/-- Claim C8 (amended): the entity-level and ORM-DAO Species deserializers
produce no value when invoked without the long flag (the short branch is
absent, so the return of the unbound local raises), while the raw-SQL
Species deserializer returns the short species-listing mapping; every Animal
and Animal-Center deserializer, in all three components, returns a short-form
mapping. -/
theorem claim8_short_branch (s : SpeciesRow) (a : AnimalRow) (c : CenterRow)
    (rec1 rec2 : List Value) :
    Species.deserialize s false = none ∧
    SpeciesORM.deserialize s false = none ∧
    keys (SpeciesDAO.deserialize rec1 false) = ["species_name", "count_of_animals"] ∧
    keys (AnimalsDAO.deserialize rec2 false) = ["id", "name"] ∧
    keys (AnimalORM.deserialize a false) = ["id", "name"] ∧
    keys (Animal.deserialize a false) = ["id", "name"] ∧
    keys (AnimalCentersDAO.deserialize c false) = ["id", "login"] ∧
    keys (AnimalCenterORM.deserialize c false) = ["id", "login"] ∧
    keys (AnimalCenter.deserialize c false) = ["id", "login"] :=
  ⟨rfl, rfl, rfl, rfl, rfl, rfl, rfl, rfl, rfl⟩

/-! ## Claim C9 -/

/-- Claim C9: with the database state fixed (no intervening mutation), two
calls of the list-animals operation agree as sets — in the pure embedding the
two calls are the very same list, hence permutations of each other — and
every element is a short `id`/`name` mapping.  This holds for all three
implementations. -/
theorem claim9_list_animals_idempotent (db : DB) :
    List.Perm (AnimalsDAO.get_animals db) (AnimalsDAO.get_animals db) ∧
    List.Perm (AnimalORM.get_animals db) (AnimalORM.get_animals db) ∧
    List.Perm (Animal.get_animals db) (Animal.get_animals db) ∧
    (∀ d ∈ AnimalsDAO.get_animals db, keys d = ["id", "name"]) ∧
    (∀ d ∈ AnimalORM.get_animals db, keys d = ["id", "name"]) ∧
    (∀ d ∈ Animal.get_animals db, keys d = ["id", "name"]) := by
  refine ⟨List.Perm.refl _, List.Perm.refl _, List.Perm.refl _, ?_, ?_, ?_⟩
  · intro d hd
    obtain ⟨x, _, rfl⟩ := List.mem_map.mp hd
    rfl
  · intro d hd
    obtain ⟨x, _, rfl⟩ := List.mem_map.mp hd
    rfl
  · intro d hd
    obtain ⟨x, _, rfl⟩ := List.mem_map.mp hd
    rfl

/-! ## Claim C3 -/

/-- Claim C3: in both DAO components, fetching an existing animal id returns
a long-form mapping whose key set is exactly `id`, `center_id`, `name`,
`description`, `age`, `species_id`, `price` and whose `id` entry is the
requested identifier; fetching a non-existent id returns the no-match
sentinel. -/
theorem claim3_get_animal (db : DB) (animal_id : Int) :
    ((∃ a ∈ db.animals, a.id = Value.int animal_id) →
        (∃ d, AnimalsDAO.get_animal db animal_id = some d ∧
            List.Perm (keys d) animalFields ∧
            lookupKey d "id" = some (Value.int animal_id)) ∧
        (∃ d, AnimalORM.get_animal db animal_id = some d ∧
            List.Perm (keys d) animalFields ∧
            lookupKey d "id" = some (Value.int animal_id))) ∧
    ((∀ a ∈ db.animals, a.id ≠ Value.int animal_id) →
        AnimalsDAO.get_animal db animal_id = none ∧
        AnimalORM.get_animal db animal_id = none) := by
  constructor
  · intro h
    have hs : (db.animals.find? (fun a => decide (a.id = Value.int animal_id))).isSome := by
      rw [List.find?_isSome]
      obtain ⟨a, ha, hid⟩ := h
      exact ⟨a, ha, by simp [hid]⟩
    obtain ⟨a, hfind⟩ := Option.isSome_iff_exists.mp hs
    have hid : a.id = Value.int animal_id := by simpa using List.find?_some hfind
    constructor
    · refine ⟨AnimalsDAO.deserialize (animalRecord a) true, by simp [AnimalsDAO.get_animal, hfind], ?_, ?_⟩
      · rw [show keys (AnimalsDAO.deserialize (animalRecord a) true) =
          ["id", "name", "center_id", "description", "age", "species_id", "price"] from rfl]
        decide
      · rw [show lookupKey (AnimalsDAO.deserialize (animalRecord a) true) "id" = some a.id from rfl]
        rw [hid]
    · refine ⟨AnimalORM.deserialize a true, by simp [AnimalORM.get_animal, hfind], ?_, ?_⟩
      · rw [show keys (AnimalORM.deserialize a true) =
          ["id", "name", "center_id", "description", "age", "species_id", "price"] from rfl]
        decide
      · rw [show lookupKey (AnimalORM.deserialize a true) "id" = some a.id from rfl]
        rw [hid]
  · intro h
    have hf := find?_id_eq_none h
    exact ⟨by simp [AnimalsDAO.get_animal, hf], by simp [AnimalORM.get_animal, hf]⟩

/-- Claim C3, witness: animal id 1 exists in `exDB` and id 2 does not. -/
theorem claim3_witness :
    ((∃ d, AnimalsDAO.get_animal exDB 1 = some d ∧
        List.Perm (keys d) animalFields ∧
        lookupKey d "id" = some (Value.int 1)) ∧
      (∃ d, AnimalORM.get_animal exDB 1 = some d ∧
        List.Perm (keys d) animalFields ∧
        lookupKey d "id" = some (Value.int 1))) ∧
    (AnimalsDAO.get_animal exDB 2 = none ∧ AnimalORM.get_animal exDB 2 = none) :=
  ⟨(claim3_get_animal exDB 1).1 (by decide), (claim3_get_animal exDB 2).2 (by decide)⟩

/-! ## Claim C4 -/

/-- Claim C4, counterexample: the claim requires every implementation of the
center-detail operation to return a pair whose second element is the set of
short mappings of the animals owned by the center.  The entity-level
`AnimalCenter.get_center_inform` returns only the long center mapping: its
result on `exDB` (center 1 owns one animal) and on `exDBnoAnimals` (center 1
owns none) is identical, so it cannot carry the owned-animal set in either
state; and the ORM-DAO implementation raises on the existing center because
it reads the `animals` relationship that is commented out of the schema. -/
theorem claim4_counterexample :
    AnimalCenter.get_center_inform exDB 1 = AnimalCenter.get_center_inform exDBnoAnimals 1 ∧
    (∃ a ∈ exDB.animals, a.center_id = Value.int 1) ∧
    (∀ a ∈ exDBnoAnimals.animals, a.center_id ≠ Value.int 1) ∧
    AnimalCenterORM.get_center_inform exDB 1 = Except.error () := by
  refine ⟨rfl, by decide, by decide, rfl⟩

/-- Claim C4 (amended): for an existing center id, the raw-SQL
`get_center_inform` returns the pair of the long center mapping (with the
requested id) and exactly the short mappings of the animals whose `center_id`
equals the request; the ORM-DAO implementation instead raises (the `animals`
relationship is commented out of the entity schema), and the entity-level
implementation returns only the long center mapping, with no animal list. -/
theorem claim4_center_detail (db : DB) (id : Int)
    (h : ∃ c ∈ db.centers, c.id = Value.int id) :
    (∃ c pr, db.centers.find? (fun c => decide (c.id = Value.int id)) = some c ∧
        AnimalCentersDAO.get_center_inform db id = some pr ∧
        pr.1 = AnimalCentersDAO.deserialize c true ∧
        lookupKey pr.1 "id" = some (Value.int id) ∧
        (∀ d, d ∈ pr.2 ↔ ∃ a ∈ db.animals, a.center_id = Value.int id ∧
            d = AnimalsDAO.deserialize (animalRecord a) false)) ∧
    AnimalCenterORM.get_center_inform db id = Except.error () ∧
    (∃ c, db.centers.find? (fun c => decide (c.id = Value.int id)) = some c ∧
        AnimalCenter.get_center_inform db id = some (AnimalCenter.deserialize c true)) := by
  have hs : (db.centers.find? (fun c => decide (c.id = Value.int id))).isSome := by
    rw [List.find?_isSome]
    obtain ⟨c, hc, hid⟩ := h
    exact ⟨c, hc, by simp [hid]⟩
  obtain ⟨c, hfind⟩ := Option.isSome_iff_exists.mp hs
  have hid : c.id = Value.int id := by simpa using List.find?_some hfind
  refine ⟨⟨c, ⟨AnimalCentersDAO.deserialize c true,
      (db.animals.filter (fun a => decide (a.center_id = Value.int id))).map
        (fun a => AnimalsDAO.deserialize (animalRecord a) false)⟩,
      hfind, by simp [AnimalCentersDAO.get_center_inform, hfind], rfl, ?_, ?_⟩,
    by simp [AnimalCenterORM.get_center_inform, hfind],
    ⟨c, hfind, by simp [AnimalCenter.get_center_inform, hfind]⟩⟩
  · rw [show lookupKey (AnimalCentersDAO.deserialize c true) "id" = some c.id from rfl]
    rw [hid]
  · intro d
    constructor
    · intro hd
      obtain ⟨a, haf, rfl⟩ := List.mem_map.mp hd
      obtain ⟨ha, hcid⟩ := List.mem_filter.mp haf
      exact ⟨a, ha, by simpa using hcid, rfl⟩
    · rintro ⟨a, ha, hcid, rfl⟩
      exact List.mem_map.mpr ⟨a, List.mem_filter.mpr ⟨ha, by simp [hcid]⟩, rfl⟩

/-- Claim C4, witness for the amended theorem: center 1 exists in `exDB`. -/
theorem claim4_witness :
    (∃ c pr, exDB.centers.find? (fun c => decide (c.id = Value.int 1)) = some c ∧
        AnimalCentersDAO.get_center_inform exDB 1 = some pr ∧
        pr.1 = AnimalCentersDAO.deserialize c true ∧
        lookupKey pr.1 "id" = some (Value.int 1) ∧
        (∀ d, d ∈ pr.2 ↔ ∃ a ∈ exDB.animals, a.center_id = Value.int 1 ∧
            d = AnimalsDAO.deserialize (animalRecord a) false)) ∧
    AnimalCenterORM.get_center_inform exDB 1 = Except.error () ∧
    (∃ c, exDB.centers.find? (fun c => decide (c.id = Value.int 1)) = some c ∧
        AnimalCenter.get_center_inform exDB 1 = some (AnimalCenter.deserialize c true)) :=
  claim4_center_detail exDB 1 (by decide)

/-! ## Claim C10 -/

/-- Claim C10: in the raw-SQL and ORM DAO components, `check_password`
returns a boolean only under the precondition that a center row with the
given id exists; with no matching row both implementations raise while
reading the password hash from the absent record (they return neither
`false` nor the no-match sentinel). -/
theorem claim10_check_password_requires_center (cph : String → String → Bool)
    (db : DB) (password : String) (user_id : Int) :
    ((∀ c ∈ db.centers, c.id ≠ Value.int user_id) →
        AnimalCentersDAO.check_password cph db password user_id = Except.error () ∧
        AnimalCenterORM.check_password cph db password user_id = Except.error ()) ∧
    ((∃ c ∈ db.centers, c.id = Value.int user_id) →
        ∃ b, AnimalCentersDAO.check_password cph db password user_id = Except.ok b ∧
          AnimalCenterORM.check_password cph db password user_id = Except.ok b) := by
  constructor
  · intro h
    have hf := find?_center_id_eq_none h
    exact ⟨by simp [AnimalCentersDAO.check_password, hf],
      by simp [AnimalCenterORM.check_password, hf]⟩
  · intro h
    have hs : (db.centers.find? (fun c => decide (c.id = Value.int user_id))).isSome := by
      rw [List.find?_isSome]
      obtain ⟨c, hc, hid⟩ := h
      exact ⟨c, hc, by simp [hid]⟩
    obtain ⟨c, hfind⟩ := Option.isSome_iff_exists.mp hs
    exact ⟨cph c.password_hash password,
      by simp [AnimalCentersDAO.check_password, hfind],
      by simp [AnimalCenterORM.check_password, hfind]⟩

/-- Claim C10, witness: center 1 exists in `exDB`, center 5 does not; string
equality stands in for the abstract hash verifier. -/
theorem claim10_witness :
    (AnimalCentersDAO.check_password (fun h p => h == p) exDB "pw" 5 = Except.error () ∧
      AnimalCenterORM.check_password (fun h p => h == p) exDB "pw" 5 = Except.error ()) ∧
    (∃ b, AnimalCentersDAO.check_password (fun h p => h == p) exDB "pw" 1 = Except.ok b ∧
      AnimalCenterORM.check_password (fun h p => h == p) exDB "pw" 1 = Except.ok b) :=
  ⟨(claim10_check_password_requires_center (fun h p => h == p) exDB "pw" 5).1 (by decide),
   (claim10_check_password_requires_center (fun h p => h == p) exDB "pw" 1).2 (by decide)⟩

/-! ## Claim C5 -/

/-- Claim C5, counterexample: the claim says update-animal sets the named
fields to the supplied values in every implementation.  Updating only the
nullable `description` of animal 1 to `None`: the ORM path stores `NULL`,
but the raw-SQL path renders the `SET` item as the quoted literal text
`None`, which the TEXT-affinity column stores verbatim — the stored value is
the string `None`, not the supplied `None`. -/
theorem claim5_counterexample :
    AnimalORM.update_animal exDB [("description", Value.null)] 1 =
      Except.ok { exDB with animals := [{ exAnimal1 with description := Value.null }] } ∧
    AnimalsDAO.update_animal exDB [("id", Value.int 1), ("description", Value.null)] =
      Except.ok { exDB with animals := [{ exAnimal1 with description := Value.str "None" }] } ∧
    Value.str "None" ≠ Value.null :=
  ⟨rfl, rfl, by decide⟩

/-- Claim C5 (amended): for a stored animal and a non-empty partial mapping
of pairwise-distinct updatable columns, the ORM-DAO and entity-level updates
produce the same resulting state, changing exactly the named fields of the
matching animal to the supplied values and leaving every other field of that
animal (its id included), every other animal row, and the other tables
unchanged.  The raw-SQL update — given the mapping together with the `id`
entry it pops — raises when the rendering of some supplied value contains a
quote character; otherwise it also changes exactly the named fields and
nothing else, but sets each one to the affinity conversion of the quoted
rendering of its supplied value, which agrees with the supplied value
exactly when every entry round-trips (integers in numeric columns and
quote-free strings in text columns do; a `None` value is instead stored as
the text `None`). -/
theorem claim5_update_partial (db : DB) (m : Dict) (animal_id : Int)
    (hkeys : ∀ k ∈ keys m, k ∈ updatableAnimalFields)
    (hnd : (keys m).Nodup)
    (hne : m ≠ [])
    (hex : ∃ a ∈ db.animals, a.id = Value.int animal_id) :
    ∃ db2,
      AnimalORM.update_animal db m animal_id = Except.ok db2 ∧
      Animal.update_animal db m animal_id = Except.ok db2 ∧
      db2.centers = db.centers ∧
      db2.species = db.species ∧
      List.Forall₂ (fun old new =>
          (old.id ≠ Value.int animal_id → new = old) ∧
          (old.id = Value.int animal_id → ∀ f ∈ animalFields,
              new.getField f = (lookupKey m f).getD (old.getField f)))
        db.animals db2.animals ∧
      ((∃ kv ∈ m, (pyStr kv.2).data.contains sqlQuote = true) →
          AnimalsDAO.update_animal db (("id", Value.int animal_id) :: m) =
            Except.error ()) ∧
      ((∀ kv ∈ m, (pyStr kv.2).data.contains sqlQuote = false) →
          ∃ db3,
            AnimalsDAO.update_animal db (("id", Value.int animal_id) :: m) =
              Except.ok db3 ∧
            db3.centers = db.centers ∧
            db3.species = db.species ∧
            List.Forall₂ (fun old new =>
                (old.id ≠ Value.int animal_id → new = old) ∧
                (old.id = Value.int animal_id → ∀ f ∈ animalFields,
                    new.getField f =
                      ((lookupKey m f).map (fun v => affinity f (pyStr v))).getD
                        (old.getField f)))
              db.animals db3.animals ∧
            ((∀ kv ∈ m, affinity kv.1 (pyStr kv.2) = kv.2) → db3 = db2)) := by
  have hfilter : m.filter (fun kv => decide (kv.1 ≠ "id")) = m :=
    List.filter_eq_self.mpr (fun kv hkv => by
      have hmem : kv.1 ∈ updatableAnimalFields :=
        hkeys kv.1 (List.mem_map.mpr ⟨kv, hkv, rfl⟩)
      simp only [decide_eq_true_eq]
      intro he
      rw [he] at hmem
      exact absurd hmem (by decide))
  have hrest : (("id", Value.int animal_id) :: m).filter
      (fun kv => decide (kv.1 ≠ "id")) = m := by
    rw [show (("id", Value.int animal_id) :: m).filter (fun kv => decide (kv.1 ≠ "id"))
        = m.filter (fun kv => decide (kv.1 ≠ "id")) from rfl]
    exact hfilter
  have hdao : AnimalsDAO.update_animal db (("id", Value.int animal_id) :: m)
      = if m.any (fun kv => (pyStr kv.2).data.contains sqlQuote) then
          Except.error ()
        else Except.ok { db with
          animals := db.animals.map (fun a =>
            if a.id = Value.int animal_id then
              applyUpd a (m.map storedSetItem)
            else a) } := by
    show (if (("id", Value.int animal_id) :: m).filter (fun kv => decide (kv.1 ≠ "id")) = []
        then (Except.error () : Except Unit DB)
        else if ((("id", Value.int animal_id) :: m).filter
              (fun kv => decide (kv.1 ≠ "id"))).any
              (fun kv => (pyStr kv.2).data.contains sqlQuote) then Except.error ()
        else Except.ok { db with
          animals := db.animals.map
              (fun (a : AnimalRow) => if a.id = Value.int animal_id then
                applyUpd a (((("id", Value.int animal_id) :: m).filter
                    (fun kv => decide (kv.1 ≠ "id"))).map storedSetItem)
                else a) }) = _
    rw [hrest, if_neg hne]
  obtain ⟨a0, ha0, hid0⟩ := hex
  have hs : (db.animals.find? (fun a => decide (a.id = Value.int animal_id))).isSome := by
    rw [List.find?_isSome]
    exact ⟨a0, ha0, by simp [hid0]⟩
  obtain ⟨af, hfind⟩ := Option.isSome_iff_exists.mp hs
  refine ⟨{ db with
      animals := db.animals.map
          (fun a => if a.id = Value.int animal_id then applyUpd a m else a) },
    by simp [AnimalORM.update_animal, hfind], by simp [Animal.update_animal, hfind],
    rfl, rfl, ?_, ?_, ?_⟩
  · show List.Forall₂ _ db.animals (db.animals.map
      (fun a => if a.id = Value.int animal_id then applyUpd a m else a))
    rw [List.forall₂_map_right_iff, List.forall₂_same]
    intro a _
    constructor
    · intro hnid
      rw [if_neg hnid]
    · intro hidq f hf
      rw [if_pos hidq]
      exact getField_applyUpd a m hnd
        (fun x hx => updatable_mem_animalFields x (hkeys x hx)) hf
  · rintro ⟨kv, hkv, hq⟩
    rw [hdao, if_pos (List.any_eq_true.mpr ⟨kv, hkv, hq⟩)]
  · intro hq
    have hanyf : m.any (fun kv => (pyStr kv.2).data.contains sqlQuote) = false := by
      rw [Bool.eq_false_iff]
      intro hc
      obtain ⟨kv, hkv, hq2⟩ := List.any_eq_true.mp hc
      rw [hq kv hkv] at hq2
      exact Bool.false_ne_true hq2
    refine ⟨{ db with
        animals := db.animals.map
            (fun a => if a.id = Value.int animal_id then
              applyUpd a (m.map storedSetItem)
            else a) },
      by rw [hdao, hanyf, if_neg Bool.false_ne_true], rfl, rfl, ?_, ?_⟩
    · show List.Forall₂ _ db.animals (db.animals.map
        (fun a => if a.id = Value.int animal_id then applyUpd a (m.map storedSetItem) else a))
      rw [List.forall₂_map_right_iff, List.forall₂_same]
      intro a _
      constructor
      · intro hnid
        rw [if_neg hnid]
      · intro hidq f hf
        have hnd2 : (keys (m.map storedSetItem)).Nodup := by
          rw [keys_map_storedSetItem]
          exact hnd
        have hk2 : ∀ x ∈ keys (m.map storedSetItem), x ∈ animalFields := by
          rw [keys_map_storedSetItem]
          exact fun x hx => updatable_mem_animalFields x (hkeys x hx)
        rw [if_pos hidq, getField_applyUpd a (m.map storedSetItem) hnd2 hk2 hf,
          lookupKey_map_storedSetItem]
    · intro hrt
      have h1 : ∀ kv ∈ m, storedSetItem kv = (fun x => x) kv := fun kv hkv => by
        show (kv.1, affinity kv.1 (pyStr kv.2)) = kv
        rw [hrt kv hkv]
      have hmap : m.map storedSetItem = m := by
        rw [List.map_congr_left h1, List.map_id']
      rw [hmap]

/-- Claim C5, witness: updating only the price of animal 1 in `exDB` to the
integer 42, whose rendering is quote-free and round-trips through the
numeric affinity of the price column, so the raw-SQL result coincides with
the ORM and entity results. -/
theorem claim5_witness :
    ∃ db2 db3,
      AnimalORM.update_animal exDB [("price", Value.int 42)] 1 = Except.ok db2 ∧
      Animal.update_animal exDB [("price", Value.int 42)] 1 = Except.ok db2 ∧
      db2.centers = exDB.centers ∧
      db2.species = exDB.species ∧
      List.Forall₂ (fun old new =>
          (old.id ≠ Value.int 1 → new = old) ∧
          (old.id = Value.int 1 → ∀ f ∈ animalFields,
              new.getField f =
                (lookupKey [("price", Value.int 42)] f).getD (old.getField f)))
        exDB.animals db2.animals ∧
      AnimalsDAO.update_animal exDB
        (("id", Value.int 1) :: [("price", Value.int 42)]) = Except.ok db3 ∧
      db3.centers = exDB.centers ∧
      db3.species = exDB.species ∧
      List.Forall₂ (fun old new =>
          (old.id ≠ Value.int 1 → new = old) ∧
          (old.id = Value.int 1 → ∀ f ∈ animalFields,
              new.getField f =
                ((lookupKey [("price", Value.int 42)] f).map
                  (fun v => affinity f (pyStr v))).getD (old.getField f)))
        exDB.animals db3.animals ∧
      db3 = db2 := by
  obtain ⟨db2, h1, h2, h3, h4, h5, _, h7⟩ :=
    claim5_update_partial exDB [("price", Value.int 42)] 1
      (by decide) (by decide) (by decide) (by decide)
  obtain ⟨db3, g1, g2, g3, g4, g5⟩ := h7 (by decide)
  exact ⟨db2, db3, h1, h2, h3, h4, h5, g1, g2, g3, g4, g5 (by decide)⟩

/-! ## Claim C6 -/

/-- Claim C6: the raw-SQL species listing groups the animal-count aggregation
by species name (one output row per distinct name) while the ORM listing
groups by species id (one output row per species row).  Hence on a state
whose species table has distinct rows sharing a name, the ORM listing has one
row per species row, the raw-SQL listing has strictly fewer rows, and the two
result sequences differ. -/
theorem claim6_species_grouping (db : DB)
    (hids : (db.species.map (fun s => s.id)).Nodup)
    (s1 s2 : SpeciesRow) (h1 : s1 ∈ db.species) (h2 : s2 ∈ db.species)
    (hne : s1 ≠ s2) (hname : s1.name = s2.name) :
    (SpeciesORM.get_species db).length = db.species.length ∧
    (SpeciesDAO.get_species db).length < db.species.length ∧
    SpeciesDAO.get_species db ≠ SpeciesORM.get_species db := by
  have horm : (SpeciesORM.get_species db).length = db.species.length := by
    simp [SpeciesORM.get_species, List.dedup_eq_self.mpr hids]
  have hnn : ¬ (db.species.map (fun s => s.name)).Nodup := fun hnodup =>
    hne (List.inj_on_of_nodup_map hnodup h1 h2 hname)
  have hdao : (SpeciesDAO.get_species db).length < db.species.length := by
    have hlt := dedup_length_lt (db.species.map (fun s => s.name)) hnn
    rw [List.length_map] at hlt
    simpa [SpeciesDAO.get_species] using hlt
  refine ⟨horm, hdao, fun heq => ?_⟩
  have hlen := congrArg List.length heq
  rw [horm] at hlen
  omega

/-- Claim C6, witness: `exDBdupName` holds two species rows with distinct ids
and the same name. -/
theorem claim6_witness :
    (SpeciesORM.get_species exDBdupName).length = exDBdupName.species.length ∧
    (SpeciesDAO.get_species exDBdupName).length < exDBdupName.species.length ∧
    SpeciesDAO.get_species exDBdupName ≠ SpeciesORM.get_species exDBdupName :=
  claim6_species_grouping exDBdupName (by decide) exSpecies1 exSpecies2
    (by decide) (by decide) (by decide) rfl

end AnimalShop
